import Mathlib

/-!
Shallow embedding of the resilience core of the belief-engine pipeline
(`src/utils/parallel.py`, `src/utils/retry.py`, `src/utils/checkpoint.py`,
`src/utils/quality_scorer.py`, together with the constants of `config.py`),
with theorems settling the specification claims about it.

Timestamps, wait durations and scores are modelled as rationals (`ℚ`);
token counts and retry counts as naturals. Clock reads after a sleep are
modelled as advancing by exactly the slept duration.
-/

namespace BeliefEngine

/-! ## Rate limiter (`src/utils/parallel.py`, class `RateLimiter`) -/

/-- State of `RateLimiter`: the deque `request_times` of request timestamps and
the deque `token_counts` of `(timestamp, token_count)` pairs. Both are kept in
insertion (hence time) order. -/
structure RLState where
  request_times : List ℚ
  token_counts : List (ℚ × ℕ)
  deriving Repr, DecidableEq

/-- `RateLimiter._clean_old_entries`: pop entries from the front while their
timestamp is `< current_time - 60`. On a time-ordered deque the popleft loop
is `dropWhile`. -/
def cleanOldEntries (st : RLState) (current_time : ℚ) : RLState :=
  let cutoff := current_time - 60
  { request_times := st.request_times.dropWhile (fun t => t < cutoff)
    token_counts := st.token_counts.dropWhile (fun p => p.1 < cutoff) }

/-- `RateLimiter.wait_if_needed(tokens)` under the lock, for limits `rpm` and
`tpm`, starting from state `st` at clock time `current_time`. Returns the
waited seconds and the state after recording the request. `time.sleep(w)`
followed by re-reading the clock is modelled as the clock advancing by exactly
`w`. The `request_times[0]` read is guarded by `length ≥ rpm`, which for the
configured `rpm > 0` means the deque is non-empty; `headD current_time` is the
total rendering of that read. -/
def waitIfNeeded (rpm tpm : ℕ) (st : RLState) (current_time : ℚ) (tokens : ℕ) :
    ℚ × RLState :=
  let st1 := cleanOldEntries st current_time
  -- Check RPM limit
  let wait_time : ℚ := 0
  let wait_time :=
    if st1.request_times.length ≥ rpm then
      let oldest_request := st1.request_times.headD current_time
      max wait_time (60 - (current_time - oldest_request) + 1/10)
    else wait_time
  -- Check TPM limit
  let wait_time :=
    if 0 < tokens then
      let current_tokens := (st1.token_counts.map Prod.snd).sum
      if tpm < current_tokens + tokens then
        let oldest_token_time :=
          match st1.token_counts.head? with
          | some p => p.1
          | none => current_time
        max wait_time (60 - (current_time - oldest_token_time) + 1/10)
      else wait_time
    else wait_time
  -- Wait if needed, then record this request
  if 0 < wait_time then
    let t2 := current_time + wait_time
    let st2 := cleanOldEntries st1 t2
    (wait_time,
      { request_times := st2.request_times ++ [t2]
        token_counts :=
          if 0 < tokens then st2.token_counts ++ [(t2, tokens)]
          else st2.token_counts })
  else
    (wait_time,
      { request_times := st1.request_times ++ [current_time]
        token_counts :=
          if 0 < tokens then st1.token_counts ++ [(current_time, tokens)]
          else st1.token_counts })

/-- Total token units recorded in the trailing 60-second window ending at
`now`: the sum over entries the pruning loop would keep, i.e. those with
timestamp `≥ now - 60`. -/
def tokenWindowSum (token_counts : List (ℚ × ℕ)) (now : ℚ) : ℕ :=
  ((token_counts.filter (fun p => now - 60 ≤ p.1)).map Prod.snd).sum

/-- A limiter state holding token entries `(0, 10)` and `(1, 89000)`:
89010 tokens already recorded in the window against the configured
`tpm = 90000`. -/
def c1State : RLState :=
  { request_times := [0, 1], token_counts := [(0, 10), (1, 89000)] }

/-! ## Parallel executor (`src/utils/parallel.py`, class `ParallelExecutor`)

A fallible task function is embedded as `f : α → Except ε β`: `.ok` is a
normal return, `.error` a raised exception. The function is deterministic, so
a thread-pool future for item `a` resolves to exactly the outcome `f a`
regardless of scheduling; the final `results` array is therefore a pure
function of `f` and `items`. -/

/-- The sequential branch `[func(item) for item in items]`: items are
evaluated left to right and the first raised exception propagates out of
`map` (this branch has no try/except). -/
def seqMap (f : α → Except ε β) : List α → Except ε (List β)
  | [] => .ok []
  | a :: as =>
    match f a with
    | .error e => .error e
    | .ok b =>
      match seqMap f as with
      | .error e => .error e
      | .ok bs => .ok (b :: bs)

/-- The parallel branch: `results` starts as `[None] * len(items)`; each
future's slot receives `future.result()` on success and stays/becomes `None`
when the task raised. Every index is written exactly once, so the array is
the per-item outcome map. -/
def parMap (f : α → Except ε β) (items : List α) : List (Option β) :=
  items.map (fun a => (f a).toOption)

/-- `ParallelExecutor.map(func, items)` with configuration `ENABLE_PARALLEL =
enable_parallel` and `self.max_workers = max_workers`. The sequential branch
returns raw values (embedded into the common `Option` value type via `some`);
the parallel branch returns the sentinel-padded array. An escaped exception is
the `.error` of the whole call. -/
def executorMap (enable_parallel : Bool) (max_workers : ℕ)
    (f : α → Except ε β) (items : List α) : Except ε (List (Option β)) :=
  if enable_parallel = false ∨ max_workers = 1 then
    match seqMap f items with
    | .error e => .error e
    | .ok bs => .ok (bs.map some)
  else
    .ok (parMap f items)

/-! ## Retry logic (`src/utils/retry.py`) -/

/-- A raised Python exception, carrying its `str(e)` message. `generic` covers
arbitrary exception classes; `rateLimitError` is `RateLimitError` from
`src/utils/exceptions.py`; `runtimeError` is the `RuntimeError` of the
"should never reach here" line. -/
inductive PyErr where
  | generic (msg : String)
  | rateLimitError (msg : String)
  | runtimeError (msg : String)
  deriving Repr, DecidableEq

/-- `str(e)` of an exception. -/
def PyErr.msg : PyErr → String
  | .generic m => m
  | .rateLimitError m => m
  | .runtimeError m => m

/-- Observable trace of one wrapped call under `retry_with_backoff`: the
final outcome, how many times the wrapped function was invoked, how many
times the `on_retry` callback fired (what a `RetryCounter` records), and the
`time.sleep` durations in order. -/
structure RetryTrace (β : Type u) where
  result : Except PyErr β
  invocations : ℕ
  on_retry_calls : ℕ
  sleeps : List ℚ
  deriving Repr

/-- The `while retries <= max_retries` loop of `retry_with_backoff`. `op n`
is the outcome of the `n`-th invocation of the wrapped function (0-based);
with `exceptions = (Exception,)` every raised error is caught. `retries` is
the loop's counter, `fuel = max_retries + 1 - retries` bounds the remaining
iterations; exhausting it corresponds to the unreachable trailing
`raise RuntimeError(...)`. -/
def retryGo (op : ℕ → Except PyErr β) (max_retries : ℕ) (backoff_factor max_wait : ℚ) :
    (retries fuel : ℕ) → RetryTrace β
  | _, 0 =>
    { result := .error (.runtimeError "Unexpected retry logic error")
      invocations := 0, on_retry_calls := 0, sleeps := [] }
  | retries, fuel + 1 =>
    match op retries with
    | .ok v => { result := .ok v, invocations := 1, on_retry_calls := 0, sleeps := [] }
    | .error e =>
      if max_retries < retries + 1 then
        -- `raise`: the caught exception propagates unchanged
        { result := .error e, invocations := 1, on_retry_calls := 0, sleeps := [] }
      else
        let wait_time := min (backoff_factor ^ (retries + 1)) max_wait
        let rest := retryGo op max_retries backoff_factor max_wait (retries + 1) fuel
        { result := rest.result
          invocations := rest.invocations + 1
          on_retry_calls := rest.on_retry_calls + 1
          sleeps := wait_time :: rest.sleeps }

/-- A call to a function wrapped by `retry_with_backoff(max_retries,
backoff_factor, max_wait, exceptions=(Exception,), on_retry)`. -/
def retryWithBackoff (op : ℕ → Except PyErr β) (max_retries : ℕ)
    (backoff_factor max_wait : ℚ) : RetryTrace β :=
  retryGo op max_retries backoff_factor max_wait 0 (max_retries + 1)

/-- `s.lower()` on Python strings (ASCII case folding of the message
markers involved). -/
def strLower (s : String) : String :=
  String.mk (s.data.map Char.toLower)

/-- `sub in s` on Python strings: `sub` occurs as a contiguous substring. -/
def containsSub (s sub : String) : Bool :=
  go sub.toList s.toList
where
  pre : List Char → List Char → Bool
    | [], _ => true
    | _ :: _, [] => false
    | c :: cs, d :: ds => c == d && pre cs ds
  go (sub : List Char) : List Char → Bool
    | [] => pre sub []
    | l@(_ :: rest) => pre sub l || go sub rest

/-- `"429" in error_msg or "rate_limit" in error_msg.lower()`. -/
def isRateLimitMsg (error_msg : String) : Bool :=
  containsSub error_msg "429" || containsSub (strLower error_msg) "rate_limit"

/-- `"timeout" in error_msg.lower() or "timed out" in error_msg.lower()`. -/
def isTimeoutMsg (error_msg : String) : Bool :=
  containsSub (strLower error_msg) "timeout" || containsSub (strLower error_msg) "timed out"

/-- `any(code in error_msg for code in ["500", "502", "503", "504"])`. -/
def isServerErrorMsg (error_msg : String) : Bool :=
  containsSub error_msg "500" || containsSub error_msg "502" ||
    containsSub error_msg "503" || containsSub error_msg "504"

/-- An error is retried by `retry_openai_call` only when one of the three
marker classes matches its message. -/
def isRetryableOai (e : PyErr) : Bool :=
  isRateLimitMsg e.msg || isTimeoutMsg e.msg || isServerErrorMsg e.msg

/-- Observable trace of one wrapped call under `retry_openai_call`: outcome,
invocation count, sleeps, and the list of errors that were retried (in
order). -/
structure OaiTrace (β : Type u) where
  result : Except PyErr β
  invocations : ℕ
  sleeps : List ℚ
  retried : List PyErr
  deriving Repr

/-- The `while retries <= max_retries` loop of `retry_openai_call`, with the
configured `RETRY_BACKOFF_FACTOR = 2` and `RETRY_MAX_WAIT = 60`. A
non-matching error re-raises at once; a matching one past the retry budget
raises `RateLimitError(...)` when rate-limit-classified and re-raises the
original otherwise; otherwise the wait is doubled for rate limits. -/
def oaiGo (op : ℕ → Except PyErr β) (max_retries : ℕ) :
    (retries fuel : ℕ) → OaiTrace β
  | _, 0 =>
    { result := .error (.runtimeError "Unexpected retry logic error")
      invocations := 0, sleeps := [], retried := [] }
  | retries, fuel + 1 =>
    match op retries with
    | .ok v => { result := .ok v, invocations := 1, sleeps := [], retried := [] }
    | .error e =>
      let error_msg := e.msg
      let is_rate_limit := isRateLimitMsg error_msg
      let is_timeout := isTimeoutMsg error_msg
      let is_server_error := isServerErrorMsg error_msg
      if ¬(is_rate_limit || is_timeout || is_server_error) then
        { result := .error e, invocations := 1, sleeps := [], retried := [] }
      else if max_retries < retries + 1 then
        { result :=
            if is_rate_limit then
              .error (.rateLimitError
                ("Rate limit exceeded after " ++ toString max_retries ++ " retries"))
            else .error e
          invocations := 1, sleeps := [], retried := [] }
      else
        let wait_time : ℚ :=
          if is_rate_limit then min ((2 : ℚ) ^ (retries + 1) * 2) 60
          else min ((2 : ℚ) ^ (retries + 1)) 60
        let rest := oaiGo op max_retries (retries + 1) fuel
        { result := rest.result
          invocations := rest.invocations + 1
          sleeps := wait_time :: rest.sleeps
          retried := e :: rest.retried }

/-- A call to a function wrapped by `retry_openai_call(max_retries)`. -/
def retryOpenaiCall (op : ℕ → Except PyErr β) (max_retries : ℕ) : OaiTrace β :=
  oaiGo op max_retries 0 (max_retries + 1)

/-! ## Checkpoints (`src/utils/checkpoint.py`)

A checkpoint directory of one episode is a partial map from file stem to the
JSON value stored in `<stem>.json`; `json.dump` followed by `json.load` is the
identity on the JSON data model, so a file's content is the value itself. The
write-to-temp-then-rename of `save` is atomic and collapses to a single map
update. -/

/-- A JSON value (the image of Python data under `json.dump`). -/
inductive JValue where
  | null
  | bool (b : Bool)
  | num (q : ℚ)
  | str (s : String)
  | arr (elems : List JValue)
  | obj (fields : List (String × JValue))
  deriving Repr

/-- One episode's checkpoint directory: file stem `phase` ↦ content of
`<phase>.json`. -/
def CheckpointDir : Type := String → Option JValue

/-- `key in checkpoint` / `checkpoint[key]` on a parsed JSON object:
first binding of the key, none for a non-object or missing key. -/
def jLookup (v : JValue) (key : String) : Option JValue :=
  match v with
  | .obj fields =>
    match fields.find? (fun f => f.1 == key) with
    | some f => some f.2
    | none => none
  | _ => none

/-- The checkpoint structure `save` writes:
`{"metadata": {...}, "data": data}`. -/
def mkCheckpoint (episode_id phase timestamp : String)
    (stats : List (String × JValue)) (data : JValue) : JValue :=
  .obj [("metadata", .obj [("episode_id", .str episode_id), ("phase", .str phase),
          ("timestamp", .str timestamp), ("stats", .obj stats)]),
        ("data", data)]

/-- `CheckpointManager.save(phase, data, stats)` with
`config.CHECKPOINT_ENABLED = enabled`: returns the written path (`none` when
checkpointing is disabled) and the directory after the atomic
temp-write-and-rename. -/
def checkpointSave (enabled : Bool) (dir : CheckpointDir)
    (episode_id phase timestamp : String) (data : JValue)
    (stats : List (String × JValue)) : Option String × CheckpointDir :=
  if enabled = false then (none, dir)
  else
    (some (phase ++ ".json"),
      fun p =>
        if p = phase then some (mkCheckpoint episode_id phase timestamp stats data)
        else dir p)

/-- `CheckpointManager.load(phase)`: `none` when no `<phase>.json` exists, a
`CheckpointError` when the parsed file lacks a `"metadata"` or `"data"` key,
and otherwise `checkpoint["data"]`. -/
def checkpointLoad (dir : CheckpointDir) (phase : String) :
    Except PyErr (Option JValue) :=
  match dir phase with
  | none => .ok none
  | some checkpoint =>
    match jLookup checkpoint "metadata", jLookup checkpoint "data" with
    | some _, some data => .ok (some data)
    | _, _ => .error (.generic ("Invalid checkpoint structure in " ++ phase ++ ".json"))

/-- `CheckpointManager.exists(phase)`: whether `<phase>.json` is present. -/
def checkpointPhasePresent (dir : CheckpointDir) (phase : String) : Bool :=
  (dir phase).isSome

/-- `CheckpointManager.get_last_checkpoint()`: walk
`config.CHECKPOINT_PHASES` in reverse and return the first phase whose
checkpoint exists (`ex` is the `exists` test). -/
def getLastCheckpoint (phases : List String) (ex : String → Bool) : Option String :=
  phases.reverse.find? ex

/-- `get_resume_point(episode_id)`: looks up the last checkpoint, computes
`phases.index(last_checkpoint)` (the `none` branch of `indexOf?` is the
`ValueError` handler returning `None`), and returns `last_checkpoint` from
both branches of the `if last_index < len(phases) - 1` test. -/
def getResumePoint (phases : List String) (ex : String → Bool) : Option String :=
  match getLastCheckpoint phases ex with
  | some last_checkpoint =>
    match phases.indexOf? last_checkpoint with
    | some last_index =>
      if last_index < phases.length - 1 then
        some last_checkpoint  -- "Return last completed phase"
      else
        some last_checkpoint  -- "All phases completed"
    | none => none           -- ValueError: unknown checkpoint phase
  | none => none

/-- One run directory under `config.CHECKPOINTS_DIR`: its stat mtime (seconds),
its `*.json` checkpoint files, and any other entries it holds. -/
structure EpisodeDir where
  name : String
  mtime : ℚ
  json_files : List String
  other_entries : List String
  deriving Repr, DecidableEq

/-- The per-directory body of the `cleanup_old_checkpoints` loop, given
`cutoff_date` (in seconds): a directory modified before the cutoff has all its
`*.json` files unlinked and is removed entirely when nothing else remains;
any other directory is untouched. -/
def cleanupDir (cutoff_date : ℚ) (d : EpisodeDir) : Option EpisodeDir :=
  if d.mtime < cutoff_date then
    -- unlink every `*.json` file; `iterdir` then sees only the other entries
    if d.other_entries.isEmpty then none
    else some { d with json_files := [] }
  else some d

/-- `cleanup_old_checkpoints(days)` over the run directories `dirs` at clock
time `now` (seconds): disabled for `days ≤ 0`, otherwise each directory is
processed independently against `cutoff_date = now - days·86400`. -/
def cleanupOldCheckpoints (days : ℤ) (now : ℚ) (dirs : List EpisodeDir) :
    List EpisodeDir :=
  if days ≤ 0 then dirs
  else dirs.filterMap (cleanupDir (now - (days : ℚ) * 86400))

/-! ## Quality scorer (`src/utils/quality_scorer.py` and `config.py`) -/

/-- `config.QUALITY_PENALTY_ERROR`. -/
def QUALITY_PENALTY_ERROR : ℚ := 2
/-- `config.QUALITY_PENALTY_RETRY`. -/
def QUALITY_PENALTY_RETRY : ℚ := 1/2
/-- `config.QUALITY_PENALTY_MALFORMED`. -/
def QUALITY_PENALTY_MALFORMED : ℚ := 1
/-- `config.QUALITY_PENALTY_MISMATCH`. -/
def QUALITY_PENALTY_MISMATCH : ℚ := 1/2

/-- `config.QUALITY_THRESHOLDS`, as the descending `(grade, cutoff)` list the
grade chain consults. -/
def QUALITY_THRESHOLDS : List (String × ℚ) :=
  [("A", 90), ("B", 80), ("C", 70), ("D", 60)]

/-- The counter fields of `QualityMetrics` that `calculate_score` reads. -/
structure QualityCounters where
  errors_count : ℕ
  retries_count : ℕ
  malformed_beliefs_count : ℕ
  registry_mismatches_count : ℕ
  deriving Repr, DecidableEq

/-- `QualityScorer.calculate_score()`: start at 100, deduct the weighted
counters, floor at 0. -/
def calculateScore (m : QualityCounters) : ℚ :=
  let score : ℚ := 100
  let score := score - m.errors_count * QUALITY_PENALTY_ERROR
  let score := score - m.retries_count * QUALITY_PENALTY_RETRY
  let score := score - m.malformed_beliefs_count * QUALITY_PENALTY_MALFORMED
  let score := score - m.registry_mismatches_count * QUALITY_PENALTY_MISMATCH
  max 0 score

/-- `QualityScorer.calculate_grade(score)`: the if/elif chain over the
configured thresholds. -/
def calculateGrade (score : ℚ) : String :=
  if score ≥ 90 then "A"
  else if score ≥ 80 then "B"
  else if score ≥ 70 then "C"
  else if score ≥ 60 then "D"
  else "F"

/-- Restatement of the claim's grading rule in its own words: scan the
descending `(grade, cutoff)` configuration and return the first grade whose
cutoff the score meets, else `"F"`. -/
def gradeByThresholds (thresholds : List (String × ℚ)) (score : ℚ) : String :=
  match thresholds.find? (fun t => score ≥ t.2) with
  | some t => t.1
  | none => "F"

/-! ## Theorems -/

set_option maxRecDepth 8000

/-- C1: the claimed invariant — the token window total never exceeds the unit
budget `tpm` after `wait_if_needed` admits a request — fails on the code.
With `rpm = 3500`, `tpm = 90000`, entries `(0, 10)` and `(1, 89000)` in the
window and a call `wait_if_needed(tokens=5000)` at time 2, the computed wait
`60 - (2 - 0) + 0.1 = 58.1` only guarantees that the **oldest** entry
expires: after sleeping, the entry `(1, 89000)` is still inside the window,
and the new entry is recorded without re-checking the budget, leaving
`89000 + 5000 = 94000 > 90000` units inside one 60-second window. -/
theorem c1_token_budget_violated :
    90000 < tokenWindowSum (waitIfNeeded 3500 90000 c1State 2 5000).2.token_counts
      (2 + (waitIfNeeded 3500 90000 c1State 2 5000).1) := by
  have h : waitIfNeeded 3500 90000 c1State 2 5000 =
      (581/10, { request_times := [1, 601/10],
                 token_counts := [(1, 89000), (601/10, 5000)] }) := by
    norm_num [waitIfNeeded, cleanOldEntries, c1State, List.dropWhile, max_def]
  rw [h]
  norm_num [tokenWindowSum, List.filter]

/-- helper: when every item's call succeeds, the sequential comprehension
returns the same array as the parallel outcome map. -/
theorem seqMap_of_ok {α ε β : Type} (f : α → Except ε β) (items : List α)
    (hok : ∀ a ∈ items, ∃ b, f a = .ok b) :
    ∃ l, seqMap f items = .ok l ∧ l.map some = parMap f items := by
  induction items with
  | nil => exact ⟨[], rfl, rfl⟩
  | cons a as ih =>
    obtain ⟨b, hb⟩ := hok a (List.mem_cons_self a as)
    obtain ⟨l, hl, hmap⟩ := ih (fun x hx => hok x (List.mem_cons_of_mem a hx))
    refine ⟨b :: l, ?_, ?_⟩
    · simp [seqMap, hb, hl]
    · simp only [parMap, List.map_cons, hb, Except.toOption]
      exact congrArg (some b :: ·) (by simpa [parMap] using hmap)

/-- C2 counterexample: for a function that deterministically raises on its
item, `map` with `max_workers = 1` propagates the exception (no results
array), while `max_workers = 2` completes with the `None` sentinel — the two
widths do not produce identical results. -/
theorem c2_raising_fn_breaks_equivalence :
    executorMap true 1
        (fun _ : Unit => (.error (PyErr.generic "boom") : Except PyErr Unit)) [()] ≠
      executorMap true 2
        (fun _ : Unit => (.error (PyErr.generic "boom") : Except PyErr Unit)) [()] := by
  simp [executorMap, seqMap, parMap]

/-- C2 (amended): for every function that raises on no item of the list,
`map` with `max_workers = 1` (sequential fallback) and with
`max_workers = K` for `K ≥ 1` produce identical results arrays, position by
position. -/
theorem c2_width_equivalence {α ε β : Type} (f : α → Except ε β) (items : List α)
    (K : ℕ) (hok : ∀ a ∈ items, ∃ b, f a = .ok b) (_hK : 1 ≤ K) :
    executorMap true 1 f items = executorMap true K f items := by
  obtain ⟨l, hl, hmap⟩ := seqMap_of_ok f items hok
  by_cases h1 : K = 1
  · rw [h1]
  · simp [executorMap, hl, h1, hmap]

/-- Witness for C2 at `f = Except.ok`, `items = [1, 2, 3]`, `K = 2`. -/
theorem c2_width_equivalence_witness :
    (∀ a ∈ ([1, 2, 3] : List ℕ), ∃ b, (.ok a : Except PyErr ℕ) = .ok b) ∧ 1 ≤ 2 ∧
    executorMap true 1 (fun n : ℕ => (.ok n : Except PyErr ℕ)) [1, 2, 3] =
      executorMap true 2 (fun n : ℕ => (.ok n : Except PyErr ℕ)) [1, 2, 3] :=
  ⟨fun a _ => ⟨a, rfl⟩, by norm_num,
    c2_width_equivalence _ [1, 2, 3] 2 (fun a _ => ⟨a, rfl⟩) (by norm_num)⟩

/-- C3: on the parallel path (`ENABLE_PARALLEL` and `max_workers ≠ 1`), if
the call function raises for `items[i]`, the whole `map` call completes
normally (no error escapes the executor), `results[i]` is the failure
sentinel `none`, and every other slot `j` holds the outcome of
`f items[j]`, unaffected by the failure at `i`. -/
theorem c3_partial_failure_isolated {α ε β : Type} (max_workers : ℕ)
    (f : α → Except ε β) (items : List α) (i : ℕ) (a : α) (e : ε)
    (hW : max_workers ≠ 1) (hi : items[i]? = some a) (hf : f a = .error e) :
    executorMap true max_workers f items = .ok (parMap f items) ∧
    (parMap f items)[i]? = some none ∧
    ∀ j, j ≠ i → (parMap f items)[j]? = (items[j]?).map (fun x => (f x).toOption) := by
  refine ⟨by simp [executorMap, hW], ?_, ?_⟩
  · simp [parMap, List.getElem?_map, hi, hf, Except.toOption]
  · intro j _
    simp [parMap, List.getElem?_map]

/-- Witness for C3: two items, the first raising, with `max_workers = 2`. -/
theorem c3_partial_failure_witness :
    (2 : ℕ) ≠ 1 ∧
    (([0, 1] : List ℕ)[0]? = some 0) ∧
    ((fun n : ℕ => if n = 0 then (.error (PyErr.generic "boom") : Except PyErr ℕ)
        else .ok n) 0 = .error (PyErr.generic "boom")) ∧
    (executorMap true 2
        (fun n : ℕ => if n = 0 then (.error (PyErr.generic "boom") : Except PyErr ℕ)
          else .ok n) [0, 1] =
        .ok (parMap
          (fun n : ℕ => if n = 0 then (.error (PyErr.generic "boom") : Except PyErr ℕ)
            else .ok n) [0, 1]) ∧
      (parMap
        (fun n : ℕ => if n = 0 then (.error (PyErr.generic "boom") : Except PyErr ℕ)
          else .ok n) [0, 1])[0]? = some none ∧
      ∀ j, j ≠ 0 →
        (parMap
          (fun n : ℕ => if n = 0 then (.error (PyErr.generic "boom") : Except PyErr ℕ)
            else .ok n) [0, 1])[j]? =
          (([0, 1] : List ℕ)[j]?).map (fun x =>
            ((fun n : ℕ => if n = 0 then (.error (PyErr.generic "boom") : Except PyErr ℕ)
              else .ok n) x).toOption)) :=
  ⟨by decide, rfl, by simp,
    c3_partial_failure_isolated 2 _ [0, 1] 0 0 (PyErr.generic "boom")
      (by decide) rfl (by simp)⟩

/-- helper: the retry loop from invocation index `r`, when every invocation
before index `k` fails and invocation `k` succeeds, returns the success value
after `k - r` retries with the backoff sleeps `min(b^attempt, w)` for
`attempt = r+1, …, k`. -/
theorem retryGo_ok {β : Type} (op : ℕ → Except PyErr β) (mr : ℕ) (b w : ℚ)
    (k : ℕ) (v : β) (errf : ℕ → PyErr) (hk : k ≤ mr)
    (hfail : ∀ i, i < k → op i = .error (errf i)) (hsucc : op k = .ok v) :
    ∀ d r, r + d = k →
      retryGo op mr b w r (mr + 1 - r) =
        { result := .ok v, invocations := d + 1, on_retry_calls := d,
          sleeps := (List.range' (r + 1) d).map (fun i => min (b ^ i) w) } := by
  intro d
  induction d with
  | zero =>
    intro r hr
    simp only [Nat.add_zero] at hr
    subst hr
    have hfuel : mr + 1 - r = (mr - r) + 1 := by omega
    rw [hfuel]
    simp [retryGo, hsucc]
  | succ d ih =>
    intro r hr
    have hrk : r < k := by omega
    have hfuel : mr + 1 - r = (mr - r) + 1 := by omega
    rw [hfuel]
    have hop : op r = .error (errf r) := hfail r hrk
    have hcond : ¬ (mr < r + 1) := by omega
    have hrec : mr - r = mr + 1 - (r + 1) := by omega
    simp only [retryGo, hop, if_neg hcond]
    rw [hrec, ih (r + 1) (by omega), List.range'_succ, List.map_cons]

/-- helper: the retry loop from invocation index `r`, when every invocation
up to index `mr` fails, re-raises the error of invocation `mr` unchanged. -/
theorem retryGo_fail {β : Type} (op : ℕ → Except PyErr β) (mr : ℕ) (b w : ℚ)
    (errf : ℕ → PyErr)
    (hfail : ∀ i, i ≤ mr → op i = .error (errf i)) :
    ∀ d r, r + d = mr →
      retryGo op mr b w r (mr + 1 - r) =
        { result := .error (errf mr), invocations := d + 1, on_retry_calls := d,
          sleeps := (List.range' (r + 1) d).map (fun i => min (b ^ i) w) } := by
  intro d
  induction d with
  | zero =>
    intro r hr
    simp only [Nat.add_zero] at hr
    have hfuel : mr + 1 - r = 1 := by omega
    rw [hfuel]
    have hop : op r = .error (errf r) := hfail r (by omega)
    have hcond : mr < r + 1 := by omega
    subst hr
    simp [retryGo, hop, if_pos hcond]
  | succ d ih =>
    intro r hr
    have hfuel : mr + 1 - r = (mr - r) + 1 := by omega
    rw [hfuel]
    have hop : op r = .error (errf r) := hfail r (by omega)
    have hcond : ¬ (mr < r + 1) := by omega
    have hrec : mr - r = mr + 1 - (r + 1) := by omega
    simp only [retryGo, hop, if_neg hcond]
    rw [hrec, ih (r + 1) (by omega), List.range'_succ, List.map_cons]

/-- C4 counterexample to the "wrapped" part of the claim: when the operation
fails on every invocation, `retry_with_backoff` bare-`raise`s the caught
exception, so the propagated error is exactly the operation's own final
error `generic "boom"` — not an error wrapped to indicate retry exhaustion
(in this code base only `retry_openai_call` ever wraps, and only rate-limit
errors, in `RateLimitError`). -/
theorem c4_error_propagates_unwrapped :
    (retryWithBackoff
        (fun _ : ℕ => (.error (PyErr.generic "boom") : Except PyErr ℕ)) 1 2 60).result
      = .error (PyErr.generic "boom") := rfl

/-- C4 (amended): an operation that fails on its first `max_retries`
invocations and succeeds on invocation `max_retries + 1` returns the success
value after exactly `max_retries + 1` invocations, fires `on_retry` (hence a
`RetryCounter`) exactly `max_retries` times, and sleeps
`min(backoff_factor^attempt, max_wait)` before each retry
(`attempt = 1, …, max_retries`); an operation that fails `max_retries + 1`
times propagates the final error unchanged (not wrapped) after exactly
`max_retries + 1` invocations with no further attempt. -/
theorem c4_retry_with_backoff_behaviour {β : Type} (mr : ℕ) (b w : ℚ)
    (op1 op2 : ℕ → Except PyErr β) (errf1 errf2 : ℕ → PyErr) (v : β)
    (h1fail : ∀ i, i < mr → op1 i = .error (errf1 i)) (h1succ : op1 mr = .ok v)
    (h2fail : ∀ i, i ≤ mr → op2 i = .error (errf2 i)) :
    retryWithBackoff op1 mr b w =
      { result := .ok v, invocations := mr + 1, on_retry_calls := mr,
        sleeps := (List.range' 1 mr).map (fun i => min (b ^ i) w) } ∧
    retryWithBackoff op2 mr b w =
      { result := .error (errf2 mr), invocations := mr + 1, on_retry_calls := mr,
        sleeps := (List.range' 1 mr).map (fun i => min (b ^ i) w) } := by
  constructor
  · have h := retryGo_ok op1 mr b w mr v errf1 le_rfl h1fail h1succ mr 0 (by omega)
    simpa [retryWithBackoff] using h
  · have h := retryGo_fail op2 mr b w errf2 h2fail mr 0 (by omega)
    simpa [retryWithBackoff] using h

/-- An operation failing twice, then succeeding with 42. -/
def c4op1 : ℕ → Except PyErr ℕ :=
  fun n => if n < 2 then .error (.generic "transient") else .ok 42

/-- An operation failing on every invocation. -/
def c4op2 : ℕ → Except PyErr ℕ := fun _ => .error (.generic "transient")

/-- The errors raised by `c4op1` and `c4op2`. -/
def c4err : ℕ → PyErr := fun _ => .generic "transient"

/-- Witness for C4 at `max_retries = 2`, `backoff_factor = 2`,
`max_wait = 60`. -/
theorem c4_retry_with_backoff_witness :
    (∀ i, i < 2 → c4op1 i = .error (c4err i)) ∧ c4op1 2 = .ok 42 ∧
    (∀ i, i ≤ 2 → c4op2 i = .error (c4err i)) ∧
    (retryWithBackoff c4op1 2 2 60 =
      { result := .ok 42, invocations := 2 + 1, on_retry_calls := 2,
        sleeps := (List.range' 1 2).map (fun i => min ((2 : ℚ) ^ i) 60) } ∧
     retryWithBackoff c4op2 2 2 60 =
      { result := .error (c4err 2), invocations := 2 + 1, on_retry_calls := 2,
        sleeps := (List.range' 1 2).map (fun i => min ((2 : ℚ) ^ i) 60) }) :=
  ⟨by intro i hi; interval_cases i <;> rfl, rfl,
    by intro i hi; interval_cases i <;> rfl,
    c4_retry_with_backoff_behaviour 2 2 60 c4op1 c4op2 c4err c4err 42
      (by intro i hi; interval_cases i <;> rfl) rfl
      (by intro i hi; interval_cases i <;> rfl)⟩

/-- helper: every error the `retry_openai_call` loop ever retries matches
one of the three marker classes. -/
theorem oaiGo_retried_retryable {β : Type} (op : ℕ → Except PyErr β) (mr : ℕ) :
    ∀ fuel r e, e ∈ (oaiGo op mr r fuel).retried → isRetryableOai e = true := by
  intro fuel
  induction fuel with
  | zero => intro r e h; simp [oaiGo] at h
  | succ fuel ih =>
    intro r e h
    simp only [oaiGo] at h
    cases hop : op r with
    | ok v => rw [hop] at h; simp at h
    | error e2 =>
      rw [hop] at h
      simp only at h
      by_cases hcl : (isRateLimitMsg e2.msg || isTimeoutMsg e2.msg ||
          isServerErrorMsg e2.msg) = true
      · rw [if_neg (by simp [hcl])] at h
        by_cases hbudget : mr < r + 1
        · rw [if_pos hbudget] at h
          simp at h
        · rw [if_neg hbudget] at h
          simp only [List.mem_cons] at h
          rcases h with h | h
          · subst h; exact hcl
          · exact ih (r + 1) e h
      · rw [if_pos (by simpa using hcl)] at h
        simp at h

/-- C5: under `retry_openai_call`, an error whose message matches none of
the rate-limit markers ("429", "rate_limit"), timeout markers ("timeout",
"timed out"), or server-error codes ("500", "502", "503", "504") propagates
on the first raise after exactly one invocation, with no sleep and no retry
consumed; and every error the wrapper ever retries matches one of those
three marker classes. -/
theorem c5_openai_classification {β : Type} (mr : ℕ) (op : ℕ → Except PyErr β)
    (e : PyErr) (h0 : op 0 = .error e) (hnr : isRetryableOai e = false) :
    retryOpenaiCall op mr =
      { result := .error e, invocations := 1, sleeps := [], retried := [] } ∧
    ∀ (op2 : ℕ → Except PyErr β) (e2 : PyErr),
      e2 ∈ (retryOpenaiCall op2 mr).retried → isRetryableOai e2 = true := by
  constructor
  · have hc : (isRateLimitMsg e.msg || isTimeoutMsg e.msg ||
        isServerErrorMsg e.msg) = false := hnr
    simp only [retryOpenaiCall, oaiGo, h0, hc]
    simp
  · intro op2 e2 h
    exact oaiGo_retried_retryable op2 mr (mr + 1) 0 e2 h

/-- An operation failing with a non-retryable (auth) error. -/
def c5op : ℕ → Except PyErr ℕ := fun _ => .error (.generic "Invalid authentication key")

/-- Witness for C5 at a concrete non-retryable error and `max_retries = 3`. -/
theorem c5_openai_classification_witness :
    c5op 0 = .error (PyErr.generic "Invalid authentication key") ∧
    isRetryableOai (PyErr.generic "Invalid authentication key") = false ∧
    (retryOpenaiCall c5op 3 =
      { result := .error (PyErr.generic "Invalid authentication key"),
        invocations := 1, sleeps := [], retried := [] } ∧
     ∀ (op2 : ℕ → Except PyErr ℕ) (e2 : PyErr),
       e2 ∈ (retryOpenaiCall op2 3).retried → isRetryableOai e2 = true) :=
  ⟨rfl, by decide, c5_openai_classification 3 c5op _ rfl (by decide)⟩

/-- C6: with checkpointing enabled, `save(phase, data, stats)` followed
immediately by `load(phase)` on the same manager returns exactly `data`,
for every prior directory content, phase name, JSON-serializable data and
stats. -/
theorem c6_checkpoint_roundtrip (dir : CheckpointDir)
    (episode_id phase timestamp : String) (data : JValue)
    (stats : List (String × JValue)) :
    checkpointLoad (checkpointSave true dir episode_id phase timestamp data stats).2
        phase = .ok (some data) := by
  simp [checkpointSave, checkpointLoad, mkCheckpoint, jLookup, List.find?]

/-- helper: membership gives a defined `List.index` (no `ValueError`). -/
theorem indexOf?_isSome_of_mem {l : List String} {a : String} (h : a ∈ l) :
    (l.indexOf? a).isSome := by
  cases hidx : l.indexOf? a with
  | some i => rfl
  | none =>
    exact absurd (beq_self_eq_true a)
      (by simpa using List.indexOf?_eq_none_iff.mp hidx a h)

/-- C7: `get_last_checkpoint` returns the phase occurring latest in the
configured order whose checkpoint exists (the last element of the order
filtered by existence), and `none` when no phase in the order has a
checkpoint; in particular with order `[A, B, C]` and only `A`, `B` saved it
returns `B`. -/
theorem c7_last_checkpoint_latest :
    (∀ (phases : List String) (ex : String → Bool),
      getLastCheckpoint phases ex = (phases.filter ex).getLast?) ∧
    getLastCheckpoint ["A", "B", "C"] (fun p => p == "A" || p == "B") = some "B" := by
  constructor
  · intro phases ex
    rw [getLastCheckpoint, ← List.filter_head?, List.filter_reverse, List.head?_reverse]
  · decide

/-- A run directory whose modification time is exactly 30 days before the
clock time `30 * 86400` used below. -/
def c8BoundaryDir : EpisodeDir :=
  { name := "episode_001", mtime := 0,
    json_files := ["utterances.json"], other_entries := [] }

/-- C8 counterexample to the boundary of the claim: a run directory whose
modification time is exactly `days` days (30 days = 2592000 s) before `now`
is "at least `days` days before now", yet `cleanup_old_checkpoints(30)`
leaves it completely untouched, because the code deletes only when
`mtime < cutoff` holds strictly. -/
theorem c8_boundary_directory_kept :
    cleanupOldCheckpoints 30 (30 * 86400) [c8BoundaryDir] = [c8BoundaryDir] ∧
    (30 * 86400 : ℚ) - c8BoundaryDir.mtime = 30 * 86400 := by
  constructor
  · norm_num [cleanupOldCheckpoints, cleanupDir, c8BoundaryDir, List.filterMap]
  · norm_num [c8BoundaryDir]

/-- C8 (amended): for `days > 0`, the cleanup processes each run directory
independently of the others and decides solely from its modification time:
a directory with `mtime` strictly older than `now - days` has all its
checkpoint files deleted (and is removed when nothing else remains), while
every directory with `mtime` at or after the cutoff is left completely
untouched; checkpoint content timestamps are never consulted. -/
theorem c8_cleanup_by_mtime (days : ℤ) (now : ℚ) (dirs : List EpisodeDir)
    (hd : 0 < days) :
    cleanupOldCheckpoints days now dirs =
      dirs.filterMap (cleanupDir (now - (days : ℚ) * 86400)) ∧
    ∀ d : EpisodeDir,
      (now - (days : ℚ) * 86400 ≤ d.mtime →
        cleanupDir (now - (days : ℚ) * 86400) d = some d) ∧
      (d.mtime < now - (days : ℚ) * 86400 →
        cleanupDir (now - (days : ℚ) * 86400) d =
          if d.other_entries.isEmpty then none
          else some { d with json_files := [] }) := by
  refine ⟨?_, fun d => ⟨fun hnew => ?_, fun hold => ?_⟩⟩
  · rw [cleanupOldCheckpoints, if_neg (by omega)]
  · rw [cleanupDir, if_neg (not_lt.mpr hnew)]
  · rw [cleanupDir, if_pos hold]

/-- Witness for C8 at `days = 30` and a concrete directory list. -/
theorem c8_cleanup_by_mtime_witness :
    (0 : ℤ) < 30 ∧
    (cleanupOldCheckpoints 30 (100 * 86400)
        [{ name := "episode_001", mtime := 0,
           json_files := ["utterances.json"], other_entries := [] }] =
      [{ name := "episode_001", mtime := 0,
         json_files := ["utterances.json"], other_entries := [] }].filterMap
        (cleanupDir ((100 : ℚ) * 86400 - (30 : ℚ) * 86400)) ∧
     ∀ d : EpisodeDir,
       ((100 : ℚ) * 86400 - (30 : ℚ) * 86400 ≤ d.mtime →
         cleanupDir ((100 : ℚ) * 86400 - (30 : ℚ) * 86400) d = some d) ∧
       (d.mtime < (100 : ℚ) * 86400 - (30 : ℚ) * 86400 →
         cleanupDir ((100 : ℚ) * 86400 - (30 : ℚ) * 86400) d =
           if d.other_entries.isEmpty then none
           else some { d with json_files := [] })) :=
  ⟨by norm_num, c8_cleanup_by_mtime 30 (100 * 86400) _ (by norm_num)⟩

/-- C9: `calculate_score` equals `max(0, 100 − errors·W_err − retries·W_retry
− malformed·W_mal − mismatches·W_mis)` and always lies in `[0, 100]`; with
the configured weights, 2 errors and 1 retry score exactly 95.5; and
`calculate_grade` is the first grade in the descending configured threshold
order whose cutoff the score meets, else `F`. -/
theorem c9_quality_score_and_grade :
    (∀ m : QualityCounters,
      calculateScore m =
        max 0 (100 - m.errors_count * QUALITY_PENALTY_ERROR
          - m.retries_count * QUALITY_PENALTY_RETRY
          - m.malformed_beliefs_count * QUALITY_PENALTY_MALFORMED
          - m.registry_mismatches_count * QUALITY_PENALTY_MISMATCH) ∧
      0 ≤ calculateScore m ∧ calculateScore m ≤ 100) ∧
    calculateScore { errors_count := 2, retries_count := 1,
                     malformed_beliefs_count := 0,
                     registry_mismatches_count := 0 } = 191 / 2 ∧
    ∀ s : ℚ, calculateGrade s = gradeByThresholds QUALITY_THRESHOLDS s := by
  refine ⟨fun m => ⟨rfl, le_max_left _ _, ?_⟩, ?_, ?_⟩
  · apply max_le (by norm_num)
    have h1 : (0 : ℚ) ≤ m.errors_count * QUALITY_PENALTY_ERROR := by
      unfold QUALITY_PENALTY_ERROR; positivity
    have h2 : (0 : ℚ) ≤ m.retries_count * QUALITY_PENALTY_RETRY := by
      unfold QUALITY_PENALTY_RETRY; positivity
    have h3 : (0 : ℚ) ≤ m.malformed_beliefs_count * QUALITY_PENALTY_MALFORMED := by
      unfold QUALITY_PENALTY_MALFORMED; positivity
    have h4 : (0 : ℚ) ≤ m.registry_mismatches_count * QUALITY_PENALTY_MISMATCH := by
      unfold QUALITY_PENALTY_MISMATCH; positivity
    linarith
  · norm_num [calculateScore, QUALITY_PENALTY_ERROR, QUALITY_PENALTY_RETRY,
      QUALITY_PENALTY_MALFORMED, QUALITY_PENALTY_MISMATCH, max_def]
  · intro s
    by_cases hA : s ≥ 90 <;> by_cases hB : s ≥ 80 <;>
      by_cases hC : s ≥ 70 <;> by_cases hD : s ≥ 60 <;>
      simp [calculateGrade, gradeByThresholds, QUALITY_THRESHOLDS, List.find?,
        hA, hB, hC, hD]

/-- C10: `get_resume_point` returns exactly `get_last_checkpoint`'s value —
the last completed phase itself (or `none` with no checkpoint), never the
next phase: the next-phase computation in its body has no effect on the
returned value. -/
theorem c10_resume_point_eq_last_checkpoint :
    ∀ (phases : List String) (ex : String → Bool),
      getResumePoint phases ex = getLastCheckpoint phases ex := by
  intro phases ex
  unfold getResumePoint
  cases hlc : getLastCheckpoint phases ex with
  | none => rfl
  | some lc =>
    have hmem : lc ∈ phases := by
      have h1 := List.mem_of_find?_eq_some hlc
      simpa using h1
    cases hidx : phases.indexOf? lc with
    | some i => simp [hidx]
    | none =>
      exact absurd (indexOf?_isSome_of_mem hmem) (by simp [hidx])

end BeliefEngine
